import Mathlib

/-!
Shallow embedding of the rislingo backend (authentication router, task1
archive router, phrase repository) and proofs about its behaviour.

The database is modelled as explicit in-memory state (lists of rows plus
id/clock counters); SQLAlchemy queries become `List.find?` / `List.filter`;
`ORDER BY created_at DESC` becomes `List.insertionSort` with the
corresponding relation; commit/rollback is modelled by the fact that each
operation that commits updates the state immediately, while an operation
that fails before its commit leaves the state unchanged (rollback discards
only uncommitted work).  Timestamps and row ids are natural numbers; UUID
values are the natural number a UUID string denotes.
-/

deriving instance DecidableEq for Except

namespace Rislingo

/-- A row of the `users` table (`models.User`): id and the opaque external
identifier (unique). -/
structure User where
  id : Nat
  user_identifier : String
deriving DecidableEq, Repr

/-- A row of the `sessions` table (`models.Session`, imported as `DBSession`
in `auth.py`): id, owning user id, opaque token, expiry timestamp. -/
structure DBSession where
  id : Nat
  user_id : Nat
  session_token : String
  expires_at : Nat
deriving DecidableEq, Repr

/-- The part of the store the authentication router touches, plus counters
supplying fresh primary keys. -/
structure AuthDB where
  users : List User
  sessions : List DBSession
  nextUserId : Nat
  nextSessionId : Nat
deriving DecidableEq, Repr

/-- An HTTP error as raised by `HTTPException(status_code, detail)`. -/
structure HTTPError where
  status : Nat
  detail : String
deriving DecidableEq, Repr

/-- Embedding of `create_or_get_user` (auth.py lines 34-44): look the user up
by `user_identifier`; if absent, insert a fresh row and commit. -/
def create_or_get_user (db : AuthDB) (ident : String) : User × AuthDB :=
  match db.users.find? (fun u => u.user_identifier == ident) with
  | some u => (u, db)
  | none =>
    let u : User := ⟨db.nextUserId, ident⟩
    (u, { db with users := db.users ++ [u], nextUserId := db.nextUserId + 1 })

/-- Embedding of `get_current_user` (auth.py lines 85-111).  A missing or
empty token (Python `if not session_token`) yields no identity; an unknown
token yields no identity; a session with `expires_at < now` is deleted and
yields no identity; otherwise the user row is looked up by id. -/
def get_current_user (session_token : Option String) (now : Nat) (db : AuthDB) :
    Option User × AuthDB :=
  match session_token with
  | none => (none, db)
  | some tok =>
    if tok = "" then (none, db)
    else
      match db.sessions.find? (fun s => s.session_token == tok) with
      | none => (none, db)
      | some s =>
        if s.expires_at < now then
          (none, { db with sessions := db.sessions.filter (fun t => t.id != s.id) })
        else
          (db.users.find? (fun u => u.id == s.user_id), db)

/-- Response body of `GET /api/auth/verify`. -/
structure VerifyResponse where
  valid : Bool
  user_id : Nat
  user_identifier : String
deriving DecidableEq, Repr

/-- Embedding of `verify_session` (auth.py lines 114-131): resolve the token;
401 when no user results, otherwise the user's data. -/
def verify_session (session_token : String) (now : Nat) (db : AuthDB) :
    Except HTTPError VerifyResponse × AuthDB :=
  match get_current_user (some session_token) now db with
  | (none, db1) => (.error ⟨401, "Invalid or expired session"⟩, db1)
  | (some user, db1) => (.ok ⟨true, user.id, user.user_identifier⟩, db1)

/-- Failure injection for the two database commits performed by
`simple_login`: the commit of the new user row inside `create_or_get_user`,
and the commit of the new session row.  The string is the message of the
raised exception (`str(e)`). -/
inductive WriteFail where
  | noFail
  | userInsert (msg : String)
  | sessionInsert (msg : String)
deriving DecidableEq, Repr

/-- Response body of `POST /api/auth/simple-login`. -/
structure SimpleLoginResponse where
  session_token : String
  user_id : Nat
deriving DecidableEq, Repr

/-- Seconds in the 30-day session lifetime (`timedelta(days=30)`). -/
def thirtyDays : Nat := 30 * 24 * 60 * 60

/-- Second half of `simple_login` (auth.py lines 61-78): insert and commit the
session row for the resolved user.  If that commit raises, the handler's
`db.rollback()` discards only the uncommitted session insert, and a 500 whose
detail interpolates `str(e)` is raised; the state passed in (which already
contains any user row committed by `create_or_get_user`) is untouched. -/
def login_store_session (user : User) (token : String) (now : Nat)
    (fail : WriteFail) (db : AuthDB) :
    Except HTTPError SimpleLoginResponse × AuthDB :=
  match fail with
  | .sessionInsert msg => (.error ⟨500, "Login failed: " ++ msg⟩, db)
  | _ =>
    let s : DBSession := ⟨db.nextSessionId, user.id, token, now + thirtyDays⟩
    (.ok ⟨token, user.id⟩,
      { db with sessions := db.sessions ++ [s], nextSessionId := db.nextSessionId + 1 })

/-- Embedding of `simple_login` (auth.py lines 47-82) with failure injection
for the database commits.  The token is passed in (the code draws it from
`secrets.token_urlsafe`).  When the user-insert commit inside
`create_or_get_user` fails, the rollback discards the pending insert and the
error surfaces as a 500 whose detail interpolates `str(e)`; a user-insert
failure cannot occur when the user already exists, since no insert runs. -/
def simple_login (ident token : String) (now : Nat) (fail : WriteFail)
    (db : AuthDB) : Except HTTPError SimpleLoginResponse × AuthDB :=
  match db.users.find? (fun u => u.user_identifier == ident) with
  | some user => login_store_session user token now fail db
  | none =>
    match fail with
    | .userInsert msg => (.error ⟨500, "Login failed: " ++ msg⟩, db)
    | _ =>
      let u : User := ⟨db.nextUserId, ident⟩
      login_store_session u token now fail
        { db with users := db.users ++ [u], nextUserId := db.nextUserId + 1 }

/-- Embedding of `logout` (auth.py lines 133-147): delete the session row
matching the token when present; always succeed. -/
def logout (session_token : String) (db : AuthDB) : String × AuthDB :=
  match db.sessions.find? (fun s => s.session_token == session_token) with
  | none => ("Logged out successfully", db)
  | some s =>
    ("Logged out successfully",
      { db with sessions := db.sessions.filter (fun t => t.id != s.id) })

/-! ## UUID strings

`task1_archive.py` validates the path parameter with Python's `uuid.UUID`
constructor.  That constructor is standard-library code external to this
repository; it is modelled here: strip an optional `urn:` then `uuid:` lead,
strip surrounding braces, discard hyphens, and require exactly 32 hex digits,
whose value is the UUID's integer value. -/

/-- If `pat` begins `cs`, the remainder of `cs` after it; otherwise `none`. -/
def matchFront : List Char → List Char → Option (List Char)
  | [], cs => some cs
  | _ :: _, [] => none
  | p :: ps, c :: cs => if p = c then matchFront ps cs else none

/-- Drop `pat` from the front of `cs` when it is there. -/
def dropToken (pat cs : List Char) : List Char :=
  match matchFront pat cs with
  | some rest => rest
  | none => cs

/-- The value of a hex digit, or `none` for any other character. -/
def hexDigitVal (c : Char) : Option Nat :=
  if 48 ≤ c.toNat ∧ c.toNat ≤ 57 then some (c.toNat - 48)
  else if 97 ≤ c.toNat ∧ c.toNat ≤ 102 then some (c.toNat - 97 + 10)
  else if 65 ≤ c.toNat ∧ c.toNat ≤ 70 then some (c.toNat - 65 + 10)
  else none

/-- Read a list of hex digits as a number; `none` on a non-hex character. -/
def hexVal : List Char → Nat → Option Nat
  | [], acc => some acc
  | c :: cs, acc =>
    match hexDigitVal c with
    | some v => hexVal cs (acc * 16 + v)
    | none => none

/-- A character is an opening or closing curly brace. -/
def isBrace (c : Char) : Bool :=
  c.toNat = 123 || c.toNat = 125

/-- Modelled from the spec: well-formed-identifier parsing as performed by the
standard library's `uuid.UUID(question_id)` (external to src).  Returns the
UUID's integer value, or `none` when the string is malformed. -/
def uuidParse (s : String) : Option Nat :=
  let cs := s.toList
  let cs := dropToken ['u', 'r', 'n', ':'] cs
  let cs := dropToken ['u', 'u', 'i', 'd', ':'] cs
  let cs := ((cs.dropWhile isBrace).reverse.dropWhile isBrace).reverse
  let cs := cs.filter (fun c => c ≠ '-')
  if cs.length = 32 then hexVal cs 0 else none

/-! ## Task1 archive router -/

/-- A row of the `practice_sessions` table (`models.PracticeSession`), with
the fields the archive router reads.  `user_id` is nullable (anonymous
attempts). -/
structure PracticeSession where
  id : Nat
  user_id : Option Nat
  task_type : String
  question : String
  user_transcript : Option String
  overall_score : Option Nat
  created_at : Nat
deriving DecidableEq, Repr

/-- The part of the store the archive router touches. -/
structure ArchiveDB where
  users : List User
  psessions : List PracticeSession
deriving DecidableEq, Repr

/-- Item of the archive responses (`Task1QuestionResponse`). -/
structure Task1QuestionResponse where
  id : Nat
  question : String
  user_transcript : Option String
  overall_score : Option Nat
  created_at : Nat
deriving DecidableEq, Repr

/-- Body of `GET /api/task1-archive/questions` (`Task1ArchiveResponse`). -/
structure Task1ArchiveResponse where
  questions : List Task1QuestionResponse
  total : Nat
deriving DecidableEq, Repr

/-- `ORDER BY created_at DESC`: `a` may come before `b` when `a` was created
no earlier than `b`. -/
def createdDesc (a b : PracticeSession) : Prop :=
  b.created_at ≤ a.created_at

instance : DecidableRel createdDesc := fun a b => Nat.decLe b.created_at a.created_at

instance : IsTotal PracticeSession createdDesc :=
  ⟨fun a b => Nat.le_total b.created_at a.created_at⟩

instance : IsTrans PracticeSession createdDesc :=
  ⟨fun _ _ _ h1 h2 => Nat.le_trans h2 h1⟩

/-- Serialization of a practice session row into the response shape
(task1_archive.py lines 90-96). -/
def toQuestionResponse (s : PracticeSession) : Task1QuestionResponse :=
  ⟨s.id, s.question, s.user_transcript, s.overall_score, s.created_at⟩

/-- The sessions of `get_task1_questions`'s filtered query: user id matches
the resolved user and the task type is `"task1"`. -/
def task1Sessions (db : ArchiveDB) (uid : Nat) : List PracticeSession :=
  db.psessions.filter (fun p => p.user_id == some uid && p.task_type == "task1")

/-- Embedding of `get_task1_questions` (task1_archive.py lines 42-109),
including the `Query` bounds on limit (1..100) and offset (≥ 0, automatic for
`Nat`) that the framework enforces before the handler runs.  The total is
counted on the full filtered query; the page is the offset/limit window of
that query ordered by `created_at` descending. -/
def get_task1_questions (db : ArchiveDB) (user_id : String) (limit offset : Nat) :
    Except HTTPError Task1ArchiveResponse :=
  if ¬(1 ≤ limit ∧ limit ≤ 100) then .error ⟨422, "validation error"⟩
  else
    match db.users.find? (fun u => u.user_identifier == user_id) with
    | none => .error ⟨404, "User not found"⟩
    | some user =>
      let sorted := (task1Sessions db user.id).insertionSort createdDesc
      let total := sorted.length
      let page := (sorted.drop offset).take limit
      .ok ⟨page.map toQuestionResponse, total⟩

/-- Embedding of `get_task1_question` (task1_archive.py lines 112-168): the
id is parsed first (400 when malformed), then the user is resolved (404 when
unknown), then the single session matching id, owner and task type is looked
up (404 when absent). -/
def get_task1_question (db : ArchiveDB) (question_id user_id : String) :
    Except HTTPError Task1QuestionResponse :=
  match uuidParse question_id with
  | none => .error ⟨400, "Invalid question ID format"⟩
  | some quuid =>
    match db.users.find? (fun u => u.user_identifier == user_id) with
    | none => .error ⟨404, "User not found"⟩
    | some user =>
      match db.psessions.find?
          (fun p => p.id == quuid && p.user_id == some user.id
            && p.task_type == "task1") with
      | none => .error ⟨404, "Task1 question not found"⟩
      | some s => .ok (toQuestionResponse s)

/-! ## Phrase repository -/

/-- A row of the `saved_phrases` table (`models.SavedPhrase`). -/
structure SavedPhrase where
  id : Nat
  user_id : Nat
  phrase : String
  context : String
  category : String
  is_mastered : Bool
  created_at : Nat
deriving DecidableEq, Repr

/-- The store the phrase repository touches: the rows plus a fresh-id counter
and a clock supplying the database-generated `created_at`. -/
structure PhraseDB where
  phrases : List SavedPhrase
  nextId : Nat
  now : Nat
deriving DecidableEq, Repr

/-- `ORDER BY created_at DESC` for saved phrases. -/
def phraseDesc (a b : SavedPhrase) : Prop :=
  b.created_at ≤ a.created_at

instance : DecidableRel phraseDesc := fun a b => Nat.decLe b.created_at a.created_at

instance : IsTotal SavedPhrase phraseDesc :=
  ⟨fun a b => Nat.le_total b.created_at a.created_at⟩

instance : IsTrans SavedPhrase phraseDesc :=
  ⟨fun _ _ _ h1 h2 => Nat.le_trans h2 h1⟩

/-- Embedding of `PhraseRepository.save_phrase` (phrase_repository.py lines
22-51): insert a new row with `is_mastered = false`, commit, and return the
persisted entity with its generated id and `created_at`. -/
def save_phrase (db : PhraseDB) (user_id : Nat) (phrase context category : String) :
    SavedPhrase × PhraseDB :=
  let p : SavedPhrase := ⟨db.nextId, user_id, phrase, context, category, false, db.now⟩
  (p, { db with phrases := db.phrases ++ [p], nextId := db.nextId + 1, now := db.now + 1 })

/-- Embedding of `PhraseRepository.get_phrase` (lines 53-63): first row with
the given id, without any ownership filter. -/
def get_phrase (db : PhraseDB) (phrase_id : Nat) : Option SavedPhrase :=
  db.phrases.find? (fun p => p.id == phrase_id)

/-- Embedding of `PhraseRepository.get_user_phrases` (lines 65-80): all rows
owned by the user, ordered by `created_at` descending. -/
def get_user_phrases (db : PhraseDB) (user_id : Nat) : List SavedPhrase :=
  (db.phrases.filter (fun p => p.user_id == user_id)).insertionSort phraseDesc

/-- In-place mutation of the first row with the given id, as done through the
ORM identity map by `update_mastered_status`: that row's `is_mastered` becomes
`b`; every other row is untouched. -/
def setMasteredFirst : List SavedPhrase → Nat → Bool → List SavedPhrase
  | [], _, _ => []
  | p :: rest, pid, b =>
    if p.id == pid then { p with is_mastered := b } :: rest
    else p :: setMasteredFirst rest pid b

/-- Embedding of `PhraseRepository.update_mastered_status` (lines 99-116):
look the row up by id; when present, set its `is_mastered` flag, commit, and
return the updated entity; when absent, return `none` and leave the store
unchanged. -/
def update_mastered_status (db : PhraseDB) (phrase_id : Nat) (is_mastered : Bool) :
    Option SavedPhrase × PhraseDB :=
  match get_phrase db phrase_id with
  | none => (none, db)
  | some p =>
    (some { p with is_mastered := is_mastered },
      { db with phrases := setMasteredFirst db.phrases phrase_id is_mastered })

/-! ## Theorems -/

/-- C4: calling `create_or_get_user` twice in sequence with the same
identifier yields the same user id, and the second call creates no new row
(it leaves the store exactly as the first call left it). -/
theorem create_or_get_user_idempotent (db : AuthDB) (ident : String) :
    (create_or_get_user (create_or_get_user db ident).2 ident).1.id
      = (create_or_get_user db ident).1.id ∧
    (create_or_get_user (create_or_get_user db ident).2 ident).2
      = (create_or_get_user db ident).2 := by
  cases hf : db.users.find? (fun u => u.user_identifier == ident) with
  | some u => simp [create_or_get_user, hf]
  | none =>
    have h2 : ((db.users ++ [(⟨db.nextUserId, ident⟩ : User)]).find?
        (fun u => u.user_identifier == ident)) = some ⟨db.nextUserId, ident⟩ := by
      rw [List.find?_append, hf]
      simp
    simp [create_or_get_user, hf, h2]

/-- Store used to exhibit the expiry boundary behaviour: one user, one
session whose `expires_at` equals the query time. -/
def dbBoundary : AuthDB :=
  ⟨[⟨1, "alice"⟩], [⟨1, 1, "tok", 100⟩], 2, 2⟩

/-- C1 counterexample: a stored session queried exactly at its expiry
timestamp (`now = expires_at`, so `now ≥ expires_at`: `Expired` per the
claim's state machine) is NOT treated as expired by the code — the lookup
returns the session's user rather than no identity, and deletes nothing: the
store is unchanged.  The code tests `expires_at < now`, not `now ≥
expires_at`. -/
theorem resolveToken_boundary_not_expired :
    ((⟨1, 1, "tok", 100⟩ : DBSession) ∈ dbBoundary.sessions ∧ (100 : Nat) ≤ 100) ∧
    (get_current_user (some "tok") 100 dbBoundary).1 = some ⟨1, "alice"⟩ ∧
    (get_current_user (some "tok") 100 dbBoundary).2 = dbBoundary := by
  decide

/-- C1 (amended): for a stored session whose expiry timestamp is strictly in
the past (`expires_at < now`), with a non-empty token that no other stored
session shares (the store's uniqueness constraint on `session_token`),
`get_current_user` returns no identity, deletes the session row (no row with
that token remains), and a second lookup of the same token also returns no
identity. -/
theorem resolveToken_expired_deletes (db : AuthDB) (s : DBSession) (now : Nat)
    (hs : s ∈ db.sessions)
    (hexp : s.expires_at < now)
    (htok : s.session_token ≠ "")
    (huniq : ∀ t ∈ db.sessions, t.session_token = s.session_token → t = s) :
    (get_current_user (some s.session_token) now db).1 = none ∧
    (∀ t ∈ (get_current_user (some s.session_token) now db).2.sessions,
      t.session_token ≠ s.session_token) ∧
    (get_current_user (some s.session_token) now
      (get_current_user (some s.session_token) now db).2).1 = none := by
  have hfind : db.sessions.find? (fun t => t.session_token == s.session_token)
      = some s := by
    cases hf : db.sessions.find? (fun t => t.session_token == s.session_token) with
    | none =>
      rw [List.find?_eq_none] at hf
      exact absurd (by simp) (hf s hs)
    | some t =>
      have hp := List.find?_some hf
      have hm := List.mem_of_find?_eq_some hf
      rw [huniq t hm (by simpa using hp)]
  have hgc : get_current_user (some s.session_token) now db
      = (none, { db with sessions := db.sessions.filter (fun t => t.id != s.id) }) := by
    simp [get_current_user, htok, hfind, hexp]
  have hclean : ∀ t ∈ db.sessions.filter (fun t => t.id != s.id),
      t.session_token ≠ s.session_token := by
    intro t ht htk
    have hmem := (List.mem_filter.mp ht).1
    have hid := (List.mem_filter.mp ht).2
    rw [huniq t hmem htk] at hid
    simp at hid
  refine ⟨by rw [hgc], by rw [hgc]; exact hclean, ?_⟩
  rw [hgc]
  have hnone : (db.sessions.filter (fun t => t.id != s.id)).find?
      (fun t => t.session_token == s.session_token) = none := by
    rw [List.find?_eq_none]
    intro t ht
    simpa using hclean t ht
  simp [get_current_user, htok, hnone]

/-- Store for the C1 amended-claim witness: one user and one session that
expired at time 5. -/
def dbExpired : AuthDB :=
  ⟨[⟨1, "alice"⟩], [⟨1, 1, "tok", 5⟩], 2, 2⟩

/-- C1 witness: at time 10 the stored session with token `"tok"` (expiry 5)
resolves to no identity, and so does a second lookup of the same token. -/
theorem resolveToken_expired_deletes_witness :
    (get_current_user (some "tok") 10 dbExpired).1 = none ∧
    (get_current_user (some "tok") 10
      (get_current_user (some "tok") 10 dbExpired).2).1 = none := by
  have h := resolveToken_expired_deletes dbExpired ⟨1, 1, "tok", 5⟩ 10
    (by decide) (by decide) (by decide) (by decide)
  exact ⟨h.1, h.2.2⟩

/-- The empty store: no users, no sessions. -/
def dbEmpty : AuthDB := ⟨[], [], 1, 1⟩

/-- C2: when the commit of the session row fails during a login that created
a new user, the user row — already committed by `create_or_get_user` before
the session insert — survives the handler's rollback: the error is a 500, yet
the store now holds a `User` row for `"alice"` with no `Session` row, i.e.
partial state is visible, contrary to the claim. -/
theorem simple_login_session_failure_leaves_user :
    (simple_login "alice" "tk" 0 (.sessionInsert "boom") dbEmpty).1
      = .error ⟨500, "Login failed: boom"⟩ ∧
    (simple_login "alice" "tk" 0 (.sessionInsert "boom") dbEmpty).2.users
      = [⟨1, "alice"⟩] ∧
    (simple_login "alice" "tk" 0 (.sessionInsert "boom") dbEmpty).2.sessions = [] := by
  decide

/-- C3: the 500 raised by `simple_login` on an unexpected store error embeds
the underlying exception's message in its body: the detail is the literal
interpolation `"Login failed: " ++ str(e)`, not a generic message. -/
theorem simple_login_error_detail_leaks :
    (simple_login "bob" "tk" 0 (.sessionInsert "db connection refused") dbEmpty).1
      = .error ⟨500, "Login failed: " ++ "db connection refused"⟩ := by
  decide

/-- C9: a stored, unexpired session whose `user_id` matches no `User` row
resolves to no identity without deleting the session row, and the public
verify endpoint answers 401 for that present, well-formed, unexpired
token. -/
theorem resolveToken_orphan_session (db : AuthDB) (tok : String) (now : Nat)
    (s : DBSession)
    (htok : tok ≠ "")
    (hfind : db.sessions.find? (fun t => t.session_token == tok) = some s)
    (hexp : now < s.expires_at)
    (huser : db.users.find? (fun u => u.id == s.user_id) = none) :
    get_current_user (some tok) now db = (none, db) ∧
    verify_session tok now db = (.error ⟨401, "Invalid or expired session"⟩, db) := by
  have hnotlt : ¬ s.expires_at < now := Nat.not_lt.mpr (Nat.le_of_lt hexp)
  have h1 : get_current_user (some tok) now db = (none, db) := by
    simp [get_current_user, htok, hfind, hnotlt, huser]
  exact ⟨h1, by simp [verify_session, h1]⟩

/-- Store for the C9 witness: a session owned by user id 7, and no users. -/
def dbOrphan : AuthDB := ⟨[], [⟨1, 7, "tk", 100⟩], 1, 2⟩

/-- C9 witness: the unexpired token `"tk"` is present but its owner is gone,
so resolution yields no identity (store untouched) and verify answers 401. -/
theorem resolveToken_orphan_session_witness :
    get_current_user (some "tk") 3 dbOrphan = (none, dbOrphan) ∧
    verify_session "tk" 3 dbOrphan
      = (.error ⟨401, "Invalid or expired session"⟩, dbOrphan) :=
  resolveToken_orphan_session dbOrphan "tk" 3 ⟨1, 7, "tk", 100⟩
    (by decide) (by decide) (by decide) (by decide)

/-- C5: for a known user and in-range limits, the `total` field of
`listQuestions` equals the number of all practice sessions with that user's
id and task type `"task1"` — for any two (limit, offset) windows, so the
total is invariant under the pagination window. -/
theorem get_task1_questions_total_invariant (db : ArchiveDB) (uid : String)
    (u : User) (l1 o1 l2 o2 : Nat)
    (hu : db.users.find? (fun w => w.user_identifier == uid) = some u)
    (hl1 : 1 ≤ l1 ∧ l1 ≤ 100) (hl2 : 1 ≤ l2 ∧ l2 ≤ 100) :
    (get_task1_questions db uid l1 o1).map Task1ArchiveResponse.total
      = .ok (task1Sessions db u.id).length ∧
    (get_task1_questions db uid l2 o2).map Task1ArchiveResponse.total
      = .ok (task1Sessions db u.id).length := by
  constructor <;>
    simp [get_task1_questions, hu, hl1.1, hl1.2, hl2.1, hl2.2, Except.map,
      List.length_insertionSort]

/-- A concrete archive store: one user owning two `"task1"` sessions and one
`"task3"` session. -/
def dbArch : ArchiveDB :=
  ⟨[⟨1, "alice"⟩],
    [⟨5, some 1, "task1", "q1", none, none, 10⟩,
     ⟨6, some 1, "task1", "q2", none, none, 20⟩,
     ⟨7, some 1, "task3", "q3", none, none, 30⟩]⟩

/-- C5 witness: two calls that differ only in limit and offset both report
total 2, the number of alice's `"task1"` sessions. -/
theorem get_task1_questions_total_invariant_witness :
    (get_task1_questions dbArch "alice" 50 0).map Task1ArchiveResponse.total
      = .ok 2 ∧
    (get_task1_questions dbArch "alice" 1 1).map Task1ArchiveResponse.total
      = .ok 2 :=
  get_task1_questions_total_invariant dbArch "alice" ⟨1, "alice"⟩ 50 0 1 1
    (by decide) (by decide) (by decide)

/-- C6: a malformed question id makes `getQuestion` fail with 400 — for every
store, in particular ones in which the user does not resolve, so the
malformed-id check precedes user resolution; a well-formed id whose session
lookup misses for the resolved user fails with 404; the two statuses are
distinct. -/
theorem get_task1_question_error_semantics (db : ArchiveDB) (q uid : String) :
    (uuidParse q = none →
      get_task1_question db q uid = .error ⟨400, "Invalid question ID format"⟩) ∧
    (∀ v u, uuidParse q = some v →
      db.users.find? (fun w => w.user_identifier == uid) = some u →
      db.psessions.find? (fun p => p.id == v && p.user_id == some u.id
        && p.task_type == "task1") = none →
      get_task1_question db q uid = .error ⟨404, "Task1 question not found"⟩) ∧
    (400 : Nat) ≠ 404 := by
  refine ⟨fun hq => by simp [get_task1_question, hq],
    fun v u hq hu hf => by simp [get_task1_question, hq, hu, hf],
    by decide⟩

/-- C6 witness: against `dbArch`, the malformed id `"zzz"` yields 400 and the
well-formed but absent id of value 9 yields 404. -/
theorem get_task1_question_error_semantics_witness :
    get_task1_question dbArch "zzz" "alice"
      = .error ⟨400, "Invalid question ID format"⟩ ∧
    get_task1_question dbArch "00000000000000000000000000000009" "alice"
      = .error ⟨404, "Task1 question not found"⟩ :=
  ⟨(get_task1_question_error_semantics dbArch "zzz" "alice").1 (by decide),
    (get_task1_question_error_semantics dbArch
        "00000000000000000000000000000009" "alice").2.1 9 ⟨1, "alice"⟩
      (by decide) (by decide) (by decide)⟩

/-- C7: whenever the resolved user has no practice session matching the
requested id with task type `"task1"` — whether no such session exists at all
or sessions with that id exist but belong to another user or task type — the
result of `getQuestion` is the constant 404 `"Task1 question not found"`; two
stores in that situation are therefore observationally identical to the
caller. -/
theorem get_task1_question_absence_indistinguishable
    (db1 db2 : ArchiveDB) (q uid : String) (v : Nat) (u1 u2 : User)
    (hq : uuidParse q = some v)
    (hu1 : db1.users.find? (fun w => w.user_identifier == uid) = some u1)
    (hu2 : db2.users.find? (fun w => w.user_identifier == uid) = some u2)
    (hn1 : ∀ p ∈ db1.psessions,
      ¬(p.id = v ∧ p.user_id = some u1.id ∧ p.task_type = "task1"))
    (hn2 : ∀ p ∈ db2.psessions,
      ¬(p.id = v ∧ p.user_id = some u2.id ∧ p.task_type = "task1")) :
    get_task1_question db1 q uid = .error ⟨404, "Task1 question not found"⟩ ∧
    get_task1_question db1 q uid = get_task1_question db2 q uid := by
  have hf1 : db1.psessions.find? (fun p => p.id == v && p.user_id == some u1.id
      && p.task_type == "task1") = none := by
    rw [List.find?_eq_none]
    intro p hp
    have h := hn1 p hp
    simp only [Bool.and_eq_true, beq_iff_eq]
    tauto
  have hf2 : db2.psessions.find? (fun p => p.id == v && p.user_id == some u2.id
      && p.task_type == "task1") = none := by
    rw [List.find?_eq_none]
    intro p hp
    have h := hn2 p hp
    simp only [Bool.and_eq_true, beq_iff_eq]
    tauto
  constructor <;> simp [get_task1_question, hq, hu1, hu2, hf1, hf2]

/-- A second archive store for the C7 witness: alice and bob, where the
session with id 9 exists but belongs to bob. -/
def dbArchOther : ArchiveDB :=
  ⟨[⟨1, "alice"⟩, ⟨2, "bob"⟩],
    [⟨9, some 2, "task1", "bobs question", none, none, 40⟩]⟩

/-- C7 witness: for alice, id 9 absent from `dbArch` and id 9 owned by bob in
`dbArchOther` produce literally the same 404 response. -/
theorem get_task1_question_absence_indistinguishable_witness :
    get_task1_question dbArch "00000000000000000000000000000009" "alice"
      = .error ⟨404, "Task1 question not found"⟩ ∧
    get_task1_question dbArch "00000000000000000000000000000009" "alice"
      = get_task1_question dbArchOther "00000000000000000000000000000009" "alice" :=
  get_task1_question_absence_indistinguishable dbArch dbArchOther
    "00000000000000000000000000000009" "alice" 9 ⟨1, "alice"⟩ ⟨1, "alice"⟩
    (by decide) (by decide) (by decide) (by decide) (by decide)

/-- C8: a phrase saved for user `a` is persisted with `is_mastered = false`
and the generated id and `created_at`; it appears in `a`'s list and not in a
distinct user `b`'s list; and `a`'s list holds exactly the stored phrases
owned by `a`, ordered by `created_at` descending. -/
theorem save_phrase_visibility (db : PhraseDB) (a b : Nat)
    (ph ctx cat : String) (hab : a ≠ b) :
    (save_phrase db a ph ctx cat).1.is_mastered = false ∧
    (save_phrase db a ph ctx cat).1.id = db.nextId ∧
    (save_phrase db a ph ctx cat).1.created_at = db.now ∧
    (save_phrase db a ph ctx cat).1
      ∈ get_user_phrases (save_phrase db a ph ctx cat).2 a ∧
    (save_phrase db a ph ctx cat).1
      ∉ get_user_phrases (save_phrase db a ph ctx cat).2 b ∧
    (∀ q, q ∈ get_user_phrases (save_phrase db a ph ctx cat).2 a ↔
      (q ∈ (save_phrase db a ph ctx cat).2.phrases ∧ q.user_id = a)) ∧
    List.Sorted phraseDesc (get_user_phrases (save_phrase db a ph ctx cat).2 a) := by
  refine ⟨rfl, rfl, rfl, ?_, ?_, ?_, ?_⟩
  · simp [get_user_phrases, save_phrase, List.mem_insertionSort, List.mem_filter]
  · simp [get_user_phrases, save_phrase, List.mem_insertionSort, List.mem_filter,
      hab]
  · intro q
    simp only [get_user_phrases, save_phrase, List.mem_insertionSort,
      List.mem_filter, List.mem_append, List.mem_singleton, Bool.and_eq_true,
      beq_iff_eq]
  · exact List.sorted_insertionSort phraseDesc _

/-- The empty phrase store. -/
def dbPhraseEmpty : PhraseDB := ⟨[], 1, 0⟩

/-- C8 witness: a phrase saved for user 1 into the empty store appears in
user 1's list and not in user 2's list. -/
theorem save_phrase_visibility_witness :
    (save_phrase dbPhraseEmpty 1 "as a result" "transitions" "transition").1
      ∈ get_user_phrases
        (save_phrase dbPhraseEmpty 1 "as a result" "transitions" "transition").2 1 ∧
    (save_phrase dbPhraseEmpty 1 "as a result" "transitions" "transition").1
      ∉ get_user_phrases
        (save_phrase dbPhraseEmpty 1 "as a result" "transitions" "transition").2 2 := by
  have h := save_phrase_visibility dbPhraseEmpty 1 2 "as a result" "transitions"
    "transition" (by decide)
  exact ⟨h.2.2.2.1, h.2.2.2.2.1⟩

/-- Splitting lemma for the in-place update: when the first rows of the store
do not carry the id and `p` does, only `p`'s `is_mastered` field changes. -/
theorem setMasteredFirst_append (as bs : List SavedPhrase) (p : SavedPhrase)
    (pid : Nat) (b : Bool) (hp : p.id = pid) (has : ∀ q ∈ as, q.id ≠ pid) :
    setMasteredFirst (as ++ p :: bs) pid b
      = as ++ { p with is_mastered := b } :: bs := by
  induction as with
  | nil => simp [setMasteredFirst, hp]
  | cons q qs ih =>
    have hq : (q.id == pid) = false := by
      simp [has q (List.mem_cons_self q qs)]
    simp only [List.cons_append, setMasteredFirst, hq, Bool.false_eq_true,
      if_false, List.cons.injEq, true_and]
    exact ih (fun r hr => has r (List.mem_cons_of_mem q hr))

/-- C10: updating the mastered flag of an existing phrase returns that phrase
with only `is_mastered` replaced, and the store changes in exactly that one
row — the rows before it (none of which carry the id), the rows after it, and
the counters are all untouched. -/
theorem update_mastered_frame (db : PhraseDB) (pid : Nat) (b : Bool)
    (p : SavedPhrase)
    (hp : db.phrases.find? (fun q => q.id == pid) = some p) :
    (update_mastered_status db pid b).1 = some { p with is_mastered := b } ∧
    ∃ l1 l2, db.phrases = l1 ++ p :: l2 ∧ (∀ q ∈ l1, q.id ≠ pid) ∧
      (update_mastered_status db pid b).2
        = { db with phrases := l1 ++ { p with is_mastered := b } :: l2 } := by
  have hup : update_mastered_status db pid b
      = (some { p with is_mastered := b },
        { db with phrases := setMasteredFirst db.phrases pid b }) := by
    simp [update_mastered_status, get_phrase, hp]
  obtain ⟨hpb, as, bs, heq, hall⟩ := List.find?_eq_some.mp hp
  refine ⟨by rw [hup], as, bs, heq, fun q hq => by simpa using hall q hq, ?_⟩
  have hset : setMasteredFirst db.phrases pid b
      = as ++ { p with is_mastered := b } :: bs := by
    rw [heq]
    exact setMasteredFirst_append as bs p pid b (by simpa using hpb)
      (fun q hq => by simpa using hall q hq)
  rw [hup, hset]

/-- A concrete phrase store with two rows owned by user 1. -/
def dbPhrases : PhraseDB :=
  ⟨[⟨1, 1, "in conclusion", "ending", "conclusion", false, 10⟩,
    ⟨2, 1, "for instance", "examples", "example", false, 20⟩], 3, 30⟩

/-- C10 witness: toggling phrase 2 to mastered returns that row with only the
flag changed, and leaves row 1 (and every other field of row 2) as it was. -/
theorem update_mastered_frame_witness :
    (update_mastered_status dbPhrases 2 true).1
      = some ⟨2, 1, "for instance", "examples", "example", true, 20⟩ ∧
    (update_mastered_status dbPhrases 2 true).2.phrases
      = [⟨1, 1, "in conclusion", "ending", "conclusion", false, 10⟩,
         ⟨2, 1, "for instance", "examples", "example", true, 20⟩] := by
  have h := update_mastered_frame dbPhrases 2 true
    ⟨2, 1, "for instance", "examples", "example", false, 20⟩ (by decide)
  exact ⟨h.1, by decide⟩

end Rislingo
